/-
Verification of `pre_commit_hooks/check_puppetfile_dependencies.py`.

The Python script is shallowly embedded below.  External collaborators
(HTTP access to the Puppet Forge, the filesystem, `git diff`) are passed
in as function parameters; everything else is translated directly from
the source.  The `semver` library calls (`VersionInfo.parse`,
`semver.compare`, `semver.match`) are modelled after that library's
documented semantic-version grammar and comparison/match rules.
-/
import Mathlib

namespace PuppetCheck

/-! ## Character and string utilities (Python `str` / `re` behaviour) -/

/-- Python `\s` character class (ASCII part, which is all that occurs here). -/
def isPySpace (c : Char) : Bool :=
  c = ' ' || c = '\t' || c = '\n' || c = '\r' || c = '\x0b' || c = '\x0c'

/-- Split a character list on a separator character; Python `str.split(sep)`
semantics: the empty list yields `[[]]`, separators at the ends yield empty
fields. -/
def splitOnChar (sep : Char) : List Char → List (List Char)
  | [] => [[]]
  | c :: cs =>
    if c = sep then [] :: splitOnChar sep cs
    else
      match splitOnChar sep cs with
      | [] => [[c]]
      | p :: ps => (c :: p) :: ps

/-- Join character lists with a separator character (inverse of `splitOnChar`). -/
def joinWithChar (sep : Char) : List (List Char) → List Char
  | [] => []
  | [p] => p
  | p :: ps => p ++ sep :: joinWithChar sep ps

/-- Numeric value of a digit string (callers guarantee all-digit input). -/
def listToNat (cs : List Char) : Nat :=
  cs.foldl (fun a c => a * 10 + (c.toNat - 48)) 0

/-- Whether `pre` is a prefix of `cs` (used for Python `str.startswith`). -/
def listHasPre : List Char → List Char → Bool
  | [], _ => true
  | _ :: _, [] => false
  | p :: ps, c :: cs => p = c && listHasPre ps cs

/-- Python `str.startswith`. -/
def strStartsWith (s pre : String) : Bool :=
  listHasPre pre.data s.data

/-- Python `str.strip()`: drop leading and trailing whitespace. -/
def pyStrip (s : String) : String :=
  ⟨((s.data.dropWhile isPySpace).reverse.dropWhile isPySpace).reverse⟩

/-- Python `str.replace('/', '-')` (single-character pattern, so a map). -/
def replaceSlashDash (s : String) : String :=
  ⟨s.data.map (fun c => if c = '/' then '-' else c)⟩

/-- Three-way comparison on naturals, Python `cmp` convention (-1/0/1). -/
def cmpNatI (a b : Nat) : Int :=
  if a < b then -1 else if b < a then 1 else 0

/-- Python `cmp` on strings: lexicographic by code point, shorter list first. -/
def cmpCharList : List Char → List Char → Int
  | [], [] => 0
  | [], _ :: _ => -1
  | _ :: _, [] => 1
  | a :: xs, b :: ys =>
    if a.toNat < b.toNat then -1
    else if b.toNat < a.toNat then 1
    else cmpCharList xs ys

/-! ## Model of the `semver` library -/

/-- `semver.VersionInfo` as stored by the library: numeric core plus the raw
pre-release and build strings (absent = `None`). -/
structure VersionInfo where
  major : Nat
  minor : Nat
  patch : Nat
  prerelease : Option String
  build : Option String
deriving DecidableEq

/-- Semantic-version identifier characters `[0-9A-Za-z-]`. -/
def isIdentChar (c : Char) : Bool :=
  c.isDigit || c.isAlpha || c = '-'

/-- Numeric field grammar `0|[1-9][0-9]*` (no leading zeros). -/
def validNumCore : List Char → Bool
  | [] => false
  | [c] => c.isDigit
  | c :: cs => c.isDigit && c ≠ '0' && cs.all (fun d => d.isDigit)

/-- Pre-release identifier grammar `0|[1-9][0-9]*|[0-9]*[A-Za-z-][0-9A-Za-z-]*`:
nonempty identifier characters, and an all-digit identifier has no leading
zeros. -/
def validPreId (cs : List Char) : Bool :=
  !cs.isEmpty && cs.all isIdentChar &&
    (if cs.all (fun c => c.isDigit) then validNumCore cs else true)

/-- Build identifier grammar `[0-9A-Za-z-]+`. -/
def validBuildId (cs : List Char) : Bool :=
  !cs.isEmpty && cs.all isIdentChar

/-- Parse `major.minor.patch` (three dot-separated numeric fields). -/
def parseVersionCore (cs : List Char) : Option (Nat × Nat × Nat) :=
  match splitOnChar '.' cs with
  | [ma, mi, pa] =>
    if validNumCore ma && validNumCore mi && validNumCore pa then
      some (listToNat ma, listToNat mi, listToNat pa)
    else none
  | _ => none

/-- `semver.VersionInfo.parse`: strict semantic-version 2.0.0 grammar,
returning `none` where the library raises `ValueError`.  The build section
follows the first `+`; the pre-release section follows the first `-` before
that. -/
def VersionInfo.parse (s : String) : Option VersionInfo :=
  let plusParts := splitOnChar '+' s.data
  let corePreBuild : Option (List Char × Option (List Char)) :=
    match plusParts with
    | [cp] => some (cp, none)
    | [cp, b] => some (cp, some b)
    | _ => none
  match corePreBuild with
  | none => none
  | some (corePre, build) =>
    if (match build with
        | some b => (splitOnChar '.' b).all validBuildId
        | none => true) then
      let corePreParts := splitOnChar '-' corePre
      let core := corePreParts.headD []
      let pre : Option (List Char) :=
        match corePreParts with
        | _ :: rest@(_ :: _) => some (joinWithChar '-' rest)
        | _ => none
      if (match pre with
          | some p => (splitOnChar '.' p).all validPreId
          | none => true) then
        match parseVersionCore core with
        | some (ma, mi, pa) =>
          some { major := ma, minor := mi, patch := pa,
                 prerelease := pre.map (fun p => (⟨p⟩ : String)),
                 build := build.map (fun b => (⟨b⟩ : String)) }
        | none => none
      else none
    else none

/-- A pre-release identifier as the library's `_nat_cmp` converts it:
an integer when all digits, otherwise the string itself. -/
def convertId (cs : List Char) : Sum Nat (List Char) :=
  if !cs.isEmpty && cs.all (fun c => c.isDigit) then .inl (listToNat cs)
  else .inr cs

/-- The library's `cmp_prerelease_tag`: numeric identifiers sort before
alphanumeric ones, numerics numerically, alphanumerics lexically. -/
def cmpPreTag : Sum Nat (List Char) → Sum Nat (List Char) → Int
  | .inl a, .inl b => cmpNatI a b
  | .inl _, .inr _ => -1
  | .inr _, .inl _ => 1
  | .inr a, .inr b => cmpCharList a b

/-- Pairwise comparison of converted identifiers, falling back to `tie`
(the library ties on `cmp(len(a), len(b))` of the raw strings). -/
def zipCmpIds : List (Sum Nat (List Char)) → List (Sum Nat (List Char)) → Int → Int
  | x :: xs, y :: ys, tie =>
    let c := cmpPreTag x y
    if c ≠ 0 then c else zipCmpIds xs ys tie
  | _, _, tie => tie

/-- The library's `_nat_cmp` on the raw pre-release strings (`""` for absent). -/
def natCmpPre (a b : String) : Int :=
  zipCmpIds ((splitOnChar '.' a.data).map convertId)
    ((splitOnChar '.' b.data).map convertId)
    (cmpNatI a.data.length b.data.length)

/-- `semver` comparison of two parsed versions: numeric core first; a
release outranks any pre-release; otherwise `_nat_cmp` on the pre-release
strings.  Build metadata is ignored. -/
def compareVI (v1 v2 : VersionInfo) : Int :=
  let x :=
    if v1.major ≠ v2.major then cmpNatI v1.major v2.major
    else if v1.minor ≠ v2.minor then cmpNatI v1.minor v2.minor
    else cmpNatI v1.patch v2.patch
  if x ≠ 0 then x
  else
    let rc1 := v1.prerelease.getD ""
    let rc2 := v2.prerelease.getD ""
    let rccmp := natCmpPre rc1 rc2
    if rccmp = 0 then 0
    else if rc1 = "" then 1
    else if rc2 = "" then -1
    else rccmp

/-- `semver.compare(a, b)`: parse both strings, `none` where the library
raises `ValueError` on an invalid version. -/
def semver_compare (a b : String) : Option Int :=
  match VersionInfo.parse a, VersionInfo.parse b with
  | some v1, some v2 => some (compareVI v1 v2)
  | _, _ => none

/-- `semver.match(version, mexpr)`: the expression is an operator
(`>=`, `<=`, `==`, `!=`, `>`, `<`) followed by a version, or a bare version
starting with a digit (implicit `==`); anything else, or an unparsable
version on either side, is a `ValueError`, modelled as `none`. -/
def semver_match (version mexpr : String) : Option Bool :=
  match VersionInfo.parse version with
  | none => none
  | some v =>
    let cs := mexpr.data
    let opAndRest : Option (String × List Char) :=
      match cs with
      | a :: b :: rest =>
        let p2 : String := ⟨[a, b]⟩
        if p2 = ">=" || p2 = "<=" || p2 = "==" || p2 = "!=" then some (p2, rest)
        else if a = '>' || a = '<' then some (⟨[a]⟩, b :: rest)
        else if a.isDigit then some ("==", cs)
        else none
      | [a] =>
        if a = '>' || a = '<' then some (⟨[a]⟩, [])
        else if a.isDigit then some ("==", cs)
        else none
      | [] => none
    match opAndRest with
    | none => none
    | some (op, rest) =>
      match VersionInfo.parse ⟨rest⟩ with
      | none => none
      | some mv =>
        let c := compareVI v mv
        some (if op = ">=" then c = 0 || c = 1
              else if op = "<=" then c = -1 || c = 0
              else if op = "==" then c = 0
              else if op = "!=" then c = -1 || c = 1
              else if op = ">" then c = 1
              else c = -1)

/-! ## Constraint evaluator (`compare_versions`, lines 131-165) -/

/-- Characters matched by the clause scanner's operator class `[<>=]`. -/
def isOpChar (c : Char) : Bool :=
  c = '<' || c = '>' || c = '='

/-- Characters matched by the clause scanner's version class `[\d.]`. -/
def isVerChar (c : Char) : Bool :=
  c.isDigit || c = '.'

/-- One attempted match of `([<>=]+)\s*([\d.]+)` at the head of the input:
a maximal nonempty operator run, optional whitespace, a maximal nonempty
digits-and-dots run.  Returns the clause and the rest of the input. -/
def matchClauseAt (cs : List Char) : Option ((String × String) × List Char) :=
  let ops := cs.takeWhile isOpChar
  if ops.isEmpty then none
  else
    let rest2 := (cs.dropWhile isOpChar).dropWhile isPySpace
    let ver := rest2.takeWhile isVerChar
    if ver.isEmpty then none
    else some ((⟨ops⟩, ⟨ver⟩), rest2.dropWhile isVerChar)

/-- Scan for non-overlapping leftmost matches, advancing one character on
failure, as `re.findall` does.  `fuel` bounds recursion; each step consumes
at least one character, so an initial fuel of the input length is enough. -/
def findClausesAux : Nat → List Char → List (String × String)
  | 0, _ => []
  | _ + 1, [] => []
  | fuel + 1, c :: cs =>
    match matchClauseAt (c :: cs) with
    | some (cl, rest) => cl :: findClausesAux fuel rest
    | none => findClausesAux fuel cs

/-- `re.findall(r'([<>=]+)\s*([\d.]+)', req)` (line 133). -/
def find_version_clauses (req : String) : List (String × String) :=
  findClausesAux req.data.length req.data

/-- The comparator loop of `compare_versions` (lines 141-165): each
recognized operator applies `semver.compare` and fails the whole requirement
when the comparison does not hold or raises; any other operator run matched
by the scanner falls through every branch and is skipped. -/
def compareVersionsLoop (pv : String) : List (String × String) → Bool
  | [] => true
  | (op, ver) :: rest =>
    if op = ">=" then
      match semver_compare pv ver with
      | some c => if c ≥ 0 then compareVersionsLoop pv rest else false
      | none => false
    else if op = ">" then
      match semver_compare pv ver with
      | some c => if c > 0 then compareVersionsLoop pv rest else false
      | none => false
    else if op = "<=" then
      match semver_compare pv ver with
      | some c => if c ≤ 0 then compareVersionsLoop pv rest else false
      | none => false
    else if op = "<" then
      match semver_compare pv ver with
      | some c => if c < 0 then compareVersionsLoop pv rest else false
      | none => false
    else if op = "=" then
      match semver_compare pv ver with
      | some c => if c = 0 then compareVersionsLoop pv rest else false
      | none => false
    else compareVersionsLoop pv rest

/-- `compare_versions(puppet_dep_version, dep_version_requirement)`
(lines 131-165): scan for comparator clauses; with none, delegate to
`semver.match` and turn its `ValueError` into `false`; otherwise run the
comparator loop. -/
def compare_versions (puppet_dep_version dep_version_requirement : String) : Bool :=
  let requirements := find_version_clauses dep_version_requirement
  if requirements.isEmpty then
    match semver_match puppet_dep_version dep_version_requirement with
    | some result => result
    | none => false
  else compareVersionsLoop puppet_dep_version requirements

/-! ## Manifest parser (`parse_r10k_puppetfile`, lines 67-94) -/

/-- The per-module record kept by the parser: `{'tag': ..., 'git_url': ...}`. -/
structure ModEntry where
  tag : String
  git_url : String
deriving DecidableEq

/-- A character-list matcher for a literal sequence. -/
def expectChars : List Char → List Char → Option (List Char)
  | [], cs => some cs
  | _ :: _, [] => none
  | l :: ls, c :: cs => if c = l then expectChars ls cs else none

/-- `\s+` followed by nothing in particular: require one whitespace
character, then drop the maximal run. -/
def spacesOne (cs : List Char) : Option (List Char) :=
  match cs with
  | c :: rest => if isPySpace c then some (rest.dropWhile isPySpace) else none
  | [] => none

/-- `'([^']+)'`: an opening quote, a nonempty run of non-quote characters
(the capture), and the closing quote. -/
def takeQuoted (cs : List Char) : Option (String × List Char) :=
  match cs with
  | q :: rest =>
    if q = '\'' then
      let content := rest.takeWhile (fun c => c ≠ '\'')
      if content.isEmpty then none
      else
        match rest.dropWhile (fun c => c ≠ '\'') with
        | q2 :: rest2 => if q2 = '\'' then some (⟨content⟩, rest2) else none
        | [] => none
    else none
  | [] => none

/-- Attempt the full declaration pattern
`mod\s+'([^']+)',\s+:git\s*=>\s*'([^']+)',\s*:tag\s*=>\s*'([^']+)'`
at the head of the input, yielding the three captures. -/
def matchModAt (cs : List Char) : Option (String × String × String) :=
  (expectChars ['m', 'o', 'd'] cs).bind fun cs =>
  (spacesOne cs).bind fun cs =>
  (takeQuoted cs).bind fun (name, cs) =>
  (expectChars [','] cs).bind fun cs =>
  (spacesOne cs).bind fun cs =>
  (expectChars [':', 'g', 'i', 't'] cs).bind fun cs =>
  (expectChars ['=', '>'] (cs.dropWhile isPySpace)).bind fun cs =>
  (takeQuoted (cs.dropWhile isPySpace)).bind fun (url, cs) =>
  (expectChars [','] cs).bind fun cs =>
  (expectChars [':', 't', 'a', 'g'] (cs.dropWhile isPySpace)).bind fun cs =>
  (expectChars ['=', '>'] (cs.dropWhile isPySpace)).bind fun cs =>
  (takeQuoted (cs.dropWhile isPySpace)).bind fun (tag, _) =>
  some (name, url, tag)

/-- `re.search` of the declaration pattern: try each start position from the
left (the pattern's components are maximal-munch over disjoint character
classes, so no backtracking arises). -/
def searchMod : List Char → Option (String × String × String)
  | [] => none
  | c :: cs =>
    match matchModAt (c :: cs) with
    | some r => some r
    | none => searchMod cs

/-- `re.sub(r'^v', '', tag, flags=re.IGNORECASE)`: remove exactly one
leading `v` or `V` (the pattern is anchored, so at most one substitution). -/
def stripLeadingV (s : String) : String :=
  match s.data with
  | [] => s
  | c :: rest => if c = 'v' || c = 'V' then ⟨rest⟩ else s

/-- Python dict assignment `d[k] = v`: update in place if the key exists
(keeping its position), otherwise append. -/
def dictInsert (m : List (String × ModEntry)) (k : String) (v : ModEntry) :
    List (String × ModEntry) :=
  if m.any (fun p => p.1 = k) then
    m.map (fun p => if p.1 = k then (k, v) else p)
  else m ++ [(k, v)]

/-- The parser's loop body for one manifest line (lines 73-84): strip the
line, search for the declaration pattern, normalize the tag, and either
record the entry or collect `(module_name, tag)` among the invalid tags. -/
def processLine (acc : List (String × ModEntry) × List (String × String))
    (line : String) : List (String × ModEntry) × List (String × String) :=
  match searchMod (pyStrip line).data with
  | none => acc
  | some (module_name, git_url, rawTag) =>
    let tag := stripLeadingV rawTag
    match VersionInfo.parse tag with
    | some _ => (dictInsert acc.1 module_name ⟨tag, git_url⟩, acc.2)
    | none => (acc.1, acc.2 ++ [(module_name, tag)])

/-- `parse_r10k_puppetfile` (lines 67-94).  The manifest source is `none`
when unreadable (`FileNotFoundError`): the handler reports the error and the
function proceeds with the empty dict.  The invalid-tag list — printed by
the source — is returned alongside the mapping so it can be observed. -/
def parse_r10k_puppetfile (content : Option (List String)) :
    List (String × ModEntry) × List (String × String) :=
  match content with
  | none => ([], [])
  | some lines => lines.foldl processLine ([], [])

/-! ## Registry gateway data and `fetch_module_data` (lines 11-58) -/

/-- A `{name, version_requirement}` pair from a release's metadata. -/
structure ForgeDep where
  name : String
  version_requirement : String
deriving DecidableEq

/-- The fields `fetch_module_data` reads from the release endpoint's JSON:
`.get('version')` and `.get('metadata', {}).get('dependencies', [])`. -/
structure ReleaseData where
  version : Option String
  dependencies : List ForgeDep
deriving DecidableEq

/-- The field `fetch_module_data` reads from the module endpoint's JSON:
`.get('current_release', {}).get('version')`. -/
structure ModuleData where
  current_release_version : Option String
deriving DecidableEq

/-- The dict built by `fetch_module_data` on success (lines 50-55). -/
structure ForgeResult where
  tag : String
  current_version : Option String
  dependencies : List ForgeDep
  module_endpoint_version : Option String
deriving DecidableEq

/-- `fetch_module_data` (lines 35-58), with the two HTTP lookups
(`get_forge_release_data`, `get_forge_module_data`) passed in as the
external registry gateway.  Entries whose `git_url` is not on
`https://github.com/` return `(name, None)` without consulting the gateway;
the `puppet-resource_tree` release slug is renamed (lines 41-42). -/
def fetch_module_data (get_forge_release_data : String → Option ReleaseData)
    (get_forge_module_data : String → Option ModuleData)
    (module_info : String × ModEntry) : String × Option ForgeResult :=
  let (module_name, data) := module_info
  if !strStartsWith data.git_url "https://github.com/" then (module_name, none)
  else
    let release_slug :=
      if module_name = "puppet-resource_tree" then "jake-resource_tree-" ++ data.tag
      else module_name ++ "-" ++ data.tag
    match get_forge_release_data release_slug, get_forge_module_data module_name with
    | some forge_release_data, some forge_module_data =>
      (module_name, some
        { tag := data.tag,
          current_version := forge_release_data.version,
          dependencies := forge_release_data.dependencies,
          module_endpoint_version := forge_module_data.current_release_version })
    | _, _ => (module_name, none)

/-- `get_current_release_and_metadata` (lines 96-105): map
`fetch_module_data` over the entries (the worker pool preserves input
order) and keep the successful results. -/
def get_current_release_and_metadata (fr : String → Option ReleaseData)
    (fm : String → Option ModuleData)
    (module_data : List (String × ModEntry)) : List (String × ForgeResult) :=
  (module_data.map (fetch_module_data fr fm)).foldl
    (fun results nr =>
      match nr with
      | (module_name, some module_result) => results ++ [(module_name, module_result)]
      | (_, none) => results) []

/-- One entry of the `differences` dict built by `compare_modules`. -/
structure DiffEntry where
  puppet_tag : String
  forge_version : Option String
  forge_dependencies : List ForgeDep
  module_endpoint_version : Option String
deriving DecidableEq

/-- `compare_modules` (lines 107-129).  The source branches on
`puppet_tag != forge_version` but both branches build the identical dict,
so every fetched module gets a `DiffEntry`.  The lookup
`puppetfile_modules[module_name]` cannot fail in the pipeline (the forge
keys come from the manifest mapping); the model defaults to an empty
entry. -/
def compare_modules (puppetfile_modules : List (String × ModEntry))
    (forge_modules : List (String × ForgeResult)) : List (String × DiffEntry) :=
  forge_modules.map fun nf =>
    let (module_name, forge_info) := nf
    let puppet_tag := ((List.lookup module_name puppetfile_modules).getD ⟨"", ""⟩).tag
    (module_name,
      { puppet_tag := puppet_tag,
        forge_version := forge_info.current_version,
        forge_dependencies := forge_info.dependencies,
        module_endpoint_version := forge_info.module_endpoint_version })

/-! ## Report assembly (`print_differences`, lines 167-220) -/

/-- The status printed for one declared dependency: a plain line, a red
`[Not Found]`, or an orange `[Invalid - Provided:...]`. -/
inductive DepStatus where
  | satisfied (name req : String)
  | notFound (name req : String)
  | invalidVersion (name req provided : String)
deriving DecidableEq

/-- The structured content of one printed module block. -/
structure ModuleReport where
  module : String
  puppet_tag : String
  forge_version : Option String
  outdated : Bool
  deps : List DepStatus
deriving DecidableEq

/-- The loop body of `print_differences` for one module (lines 170-218):
the `[Outdated]` flag comes from `puppet_tag != forge_version` where
`forge_version` is the `module_endpoint_version` (lines 172-173); each
dependency is looked up under its `/`→`-` normalized name; the block is
printed when the module has errors, is outdated, or `print_all` is set.
Returns the printed block (if any) and the module's error flag. -/
def reportModule (puppet_deps : List (String × String)) (print_all : Bool)
    (md : String × DiffEntry) : Option ModuleReport × Bool :=
  let (module, diff) := md
  let puppet_tag := diff.puppet_tag
  let forge_version := diff.module_endpoint_version
  let outdated := !decide (some puppet_tag = forge_version)
  let stats := diff.forge_dependencies.map (fun dep =>
    let dep_name := replaceSlashDash dep.name
    let dep_version := dep.version_requirement
    match List.lookup dep_name puppet_deps with
    | none => DepStatus.notFound dep_name dep_version
    | some puppet_dep_version =>
      if compare_versions puppet_dep_version dep_version then
        DepStatus.satisfied dep_name dep_version
      else DepStatus.invalidVersion dep_name dep_version puppet_dep_version)
  let module_has_errors := stats.any (fun st =>
    match st with
    | .satisfied _ _ => false
    | _ => true)
  if module_has_errors || outdated || print_all then
    (some { module := module, puppet_tag := puppet_tag,
            forge_version := forge_version, outdated := outdated, deps := stats },
     module_has_errors)
  else (none, module_has_errors)

/-- Folding step of `print_differences`: accumulate printed blocks and the
`has_errors` flag. -/
def printDiffStep (puppet_deps : List (String × String)) (print_all : Bool)
    (acc : List ModuleReport × Bool) (md : String × DiffEntry) :
    List ModuleReport × Bool :=
  match reportModule puppet_deps print_all md with
  | (some r, module_has_errors) => (acc.1 ++ [r], acc.2 || module_has_errors)
  | (none, module_has_errors) => (acc.1, acc.2 || module_has_errors)

/-- `print_differences` (lines 167-220): returns the printed module blocks
in order together with `has_errors`.  `has_errors` is set only by
dependency findings (`[Not Found]` / `[Invalid]`), never by `[Outdated]`
alone. -/
def print_differences (module_differences : List (String × DiffEntry))
    (puppetfile_modules : List (String × ModEntry)) (print_all : Bool) :
    List ModuleReport × Bool :=
  let puppet_deps := puppetfile_modules.map (fun kv => (kv.1, kv.2.tag))
  module_differences.foldl (printDiffStep puppet_deps print_all) ([], false)

/-! ## `main` (lines 60-65, 222-241) -/

/-- The parsed command-line arguments (lines 61-65). -/
structure Args where
  puppetfile_path : String
  verbose : Bool
  print_all : Bool
deriving DecidableEq

/-- The body of `main` after argument parsing (lines 222-241).  `fs` is the
filesystem (path to lines, `none` when unreadable), `changed_files` the
output of the `git diff` collaborator, `fr`/`fm` the registry gateway.
Returns the printed module blocks and the exit status.  Line 226 assigns
the literal `'Puppetfile'` to `puppetfile_path`, so `args.puppetfile_path`
is never consulted; exit status 1 requires `has_errors` and not
`print_all`. -/
def main_run (fs : String → Option (List String)) (changed_files : List String)
    (fr : String → Option ReleaseData) (fm : String → Option ModuleData)
    (args : Args) : List ModuleReport × Nat :=
  if changed_files.contains "Puppetfile" || args.print_all then
    let puppetfile_path := "Puppetfile"
    let parsed := parse_r10k_puppetfile (fs puppetfile_path)
    let puppetfile_modules := parsed.1
    let forge_modules := get_current_release_and_metadata fr fm puppetfile_modules
    let module_differences := compare_modules puppetfile_modules forge_modules
    let pd := print_differences module_differences puppetfile_modules args.print_all
    if pd.2 && !args.print_all then (pd.1, 1) else (pd.1, 0)
  else ([], 0)

/-! ## Concrete fixtures for the closed runs -/

/-- A well-formed manifest line declaring module `a` pinned at `v1.0.0`. -/
def testLine : String :=
  "mod 'a', :git => 'https://github.com/x/a', :tag => 'v1.0.0'"

/-- A filesystem whose `Puppetfile` holds `testLine`. -/
def fsTest : String → Option (List String) :=
  fun p => if p = "Puppetfile" then some [testLine] else none

/-- A filesystem where only `custom.pf` exists (holding `testLine`). -/
def fsCustom : String → Option (List String) :=
  fun p => if p = "custom.pf" then some [testLine] else none

/-- A filesystem with no readable files. -/
def fsNone : String → Option (List String) := fun _ => none

/-- A release endpoint knowing only `a-1.0.0`, whose metadata declares a
dependency on `b` with requirement `>=1.0.0`. -/
def frTest : String → Option ReleaseData :=
  fun s =>
    if s = "a-1.0.0" then
      some { version := some "2.0.0",
             dependencies := [{ name := "b", version_requirement := ">=1.0.0" }] }
    else none

/-- A module endpoint reporting `2.0.0` as the current release of `a`. -/
def fmTest : String → Option ModuleData :=
  fun s => if s = "a" then some { current_release_version := some "2.0.0" } else none

/-- A release endpoint that always fails. -/
def frNone : String → Option ReleaseData := fun _ => none

/-- A module endpoint that always fails. -/
def fmNone : String → Option ModuleData := fun _ => none

/-- A manifest line whose tag (`vbad`) fails semantic-version validation. -/
def badTagLine : String := "mod 'a', :git => 'u', :tag => 'vbad'"

/-- A difference entry whose module-endpoint version differs from the
pinned tag only by a pre-release qualifier. -/
def diffPre : DiffEntry :=
  { puppet_tag := "1.2.0", forge_version := some "1.2.0-rc.1",
    forge_dependencies := [], module_endpoint_version := some "1.2.0-rc.1" }

/-- A difference entry whose module-endpoint version differs from the
pinned tag only by build metadata (semantically the equal version). -/
def diffBuild : DiffEntry :=
  { puppet_tag := "1.2.0", forge_version := some "1.2.0+build.1",
    forge_dependencies := [], module_endpoint_version := some "1.2.0+build.1" }

/-! ## Spec-side notions used to state the claims -/

/-- The comparator operators the loop of `compare_versions` recognizes. -/
def recognizedOp (op : String) : Bool :=
  op = ">=" || op = ">" || op = "<=" || op = "<" || op = "="

/-- Modelled from the spec (§4.4): a comparator clause holds when the
semantic-version comparison for its operator is satisfied; a clause whose
version operand fails to parse does not hold, and no operator outside
`{>=, >, <=, <, =}` has defined clause semantics. -/
def specClauseHolds (v : String) (c : String × String) : Bool :=
  match semver_compare v c.2 with
  | none => false
  | some cmp =>
    if c.1 = ">=" then decide (cmp ≥ 0)
    else if c.1 = ">" then decide (cmp > 0)
    else if c.1 = "<=" then decide (cmp ≤ 0)
    else if c.1 = "<" then decide (cmp < 0)
    else if c.1 = "=" then decide (cmp = 0)
    else false

/-! ## Helper lemmas -/

/-- `semver.compare` raises (is `none`) whenever its right operand fails to
parse. -/
theorem semver_compare_none_of_parse_none {a b : String}
    (h : VersionInfo.parse b = none) : semver_compare a b = none := by
  unfold semver_compare
  rw [h]
  cases VersionInfo.parse a <;> rfl

/-- The comparator loop is the conjunction, over the scanned clauses, of
"the clause is skipped (unrecognized operator) or it holds". -/
theorem compareVersionsLoop_eq_all (pv : String) (cs : List (String × String)) :
    compareVersionsLoop pv cs =
      cs.all (fun c => !recognizedOp c.1 || specClauseHolds pv c) := by
  induction cs with
  | nil => rfl
  | cons hd tl ih =>
    obtain ⟨op, ver⟩ := hd
    rw [List.all_cons, ← ih]
    simp only [compareVersionsLoop, recognizedOp, specClauseHolds]
    rcases hsc : semver_compare pv ver with _ | cint <;>
      split_ifs with h1 h2 h3 h4 h5 <;>
        simp_all [Int.not_lt, Int.not_le]

/-! ## Claim theorems -/

/-- C3: when the requirement string scans to one or more comparator clauses,
all with recognized operators, `compare_versions` is true exactly when every
clause holds under semantic-version comparison (logical AND); moreover
`satisfies("2.1.0", ">=2.0.0")` is true, `satisfies("1.9.0", ">=2.0.0")` is
false, and `satisfies("2.0.0", ">=1.0.0 <3.0.0")` is true. -/
theorem c3_conjunctive_clauses :
    (∀ (v req : String) (cs : List (String × String)),
        find_version_clauses req = cs → cs ≠ [] →
        (∀ c ∈ cs, recognizedOp c.1 = true) →
        (compare_versions v req = true ↔ ∀ c ∈ cs, specClauseHolds v c = true))
    ∧ compare_versions "2.1.0" ">=2.0.0" = true
    ∧ compare_versions "1.9.0" ">=2.0.0" = false
    ∧ compare_versions "2.0.0" ">=1.0.0 <3.0.0" = true := by
  refine ⟨?_, by decide, by decide, by decide⟩
  intro v req cs hfind hne hrec
  cases cs with
  | nil => exact absurd rfl hne
  | cons hd tl =>
    simp only [compare_versions, hfind, List.isEmpty_cons, Bool.false_eq_true,
      if_false, compareVersionsLoop_eq_all, List.all_eq_true]
    constructor
    · intro h c hc
      have := h c hc
      rw [hrec c hc] at this
      simpa using this
    · intro h c hc
      simp [h c hc]

/-- C3 witness: the general conjunction rule instantiated at the concrete
requirement `>=2.0.0` and version `2.1.0`. -/
theorem c3_conjunctive_clauses_witness : compare_versions "2.1.0" ">=2.0.0" = true :=
  (c3_conjunctive_clauses.1 "2.1.0" ">=2.0.0" [(">=", "2.0.0")] (by decide)
    (by decide) (by decide)).mpr (by decide)

/-- C4: with no comparator clause the requirement is delegated to
`semver.match`, whose `ValueError` on malformed syntax becomes `false`; any
scanned clause with a recognized operator whose version operand fails to
parse makes the whole requirement false; and
`satisfies("2.0.0", "not-a-version")` is false. -/
theorem c4_fail_closed :
    (∀ v req : String, find_version_clauses req = [] →
        compare_versions v req = (semver_match v req).getD false)
    ∧ (∀ (v req : String) (cs : List (String × String)) (c : String × String),
        find_version_clauses req = cs → c ∈ cs → recognizedOp c.1 = true →
        VersionInfo.parse c.2 = none → compare_versions v req = false)
    ∧ compare_versions "2.0.0" "not-a-version" = false := by
  refine ⟨?_, ?_, by decide⟩
  · intro v req h
    simp only [compare_versions, h, List.isEmpty_nil, if_true]
    cases semver_match v req <;> rfl
  · intro v req cs c hfind hc hrec hparse
    have hfc : specClauseHolds v c = false := by
      unfold specClauseHolds
      rw [semver_compare_none_of_parse_none hparse]
    cases cs with
    | nil => cases hc
    | cons hd tl =>
      simp only [compare_versions, hfind, List.isEmpty_cons, Bool.false_eq_true,
        if_false, compareVersionsLoop_eq_all]
      cases hall : (hd :: tl).all (fun c => !recognizedOp c.1 || specClauseHolds v c) with
      | false => rfl
      | true =>
        have := List.all_eq_true.mp hall c hc
        rw [hrec, hfc] at this
        simp at this

/-- C4 witness: a clause `>=2.0` whose operand `2.0` is not a full semantic
version makes the requirement unsatisfied. -/
theorem c4_fail_closed_witness : compare_versions "2.0.0" ">=2.0" = false :=
  c4_fail_closed.2.1 "2.0.0" ">=2.0" [(">=", "2.0")] (">=", "2.0") (by decide)
    (by decide) (by decide) (by decide)

/-- C10: a scanned clause whose operator run is none of `>=`, `>`, `<=`,
`<`, `=` (for example `==` or `=>`, which the scanner still matches) is
silently skipped, so if every recognized clause holds the evaluator returns
true — in particular `==1.0.0` and `=>1.0.0` are satisfied by `9.9.9`. -/
theorem c10_unrecognized_operator_skipped :
    (∀ (v req : String) (cs : List (String × String)),
        find_version_clauses req = cs → cs ≠ [] →
        (∀ c ∈ cs, recognizedOp c.1 = true → specClauseHolds v c = true) →
        compare_versions v req = true)
    ∧ find_version_clauses "==1.0.0" = [("==", "1.0.0")]
    ∧ find_version_clauses "=>1.0.0" = [("=>", "1.0.0")]
    ∧ compare_versions "9.9.9" "==1.0.0" = true
    ∧ compare_versions "9.9.9" "=>1.0.0" = true := by
  refine ⟨?_, by decide, by decide, by decide, by decide⟩
  intro v req cs hfind hne hrec
  cases cs with
  | nil => exact absurd rfl hne
  | cons hd tl =>
    simp only [compare_versions, hfind, List.isEmpty_cons, Bool.false_eq_true,
      if_false, compareVersionsLoop_eq_all, List.all_eq_true]
    intro c hc
    cases hr : recognizedOp c.1 with
    | false => simp
    | true => simp [hrec c hc hr]

/-- C10 witness: the skip rule instantiated at the clause `==1.0.0` and the
version `9.9.9` (the clause's own comparison would fail). -/
theorem c10_unrecognized_operator_skipped_witness :
    compare_versions "9.9.9" "==1.0.0" = true :=
  c10_unrecognized_operator_skipped.1 "9.9.9" "==1.0.0" [("==", "1.0.0")]
    (by decide) (by decide) (by decide)

/-- C6: normalization removes exactly one leading case-insensitive `v` (a
tag beginning `vv` keeps the second `v`), and a `v`-prefixed valid semantic
version normalizes to that same version, which still validates. -/
theorem c6_strip_one_leading_v :
    (∀ s : String, stripLeadingV ("v" ++ s) = s ∧ stripLeadingV ("V" ++ s) = s)
    ∧ (∀ s : String, stripLeadingV ("vv" ++ s) = "v" ++ s)
    ∧ (∀ s : String, (VersionInfo.parse s).isSome = true →
        stripLeadingV ("v" ++ s) = s ∧
        (VersionInfo.parse (stripLeadingV ("v" ++ s))).isSome = true) := by
  have hv : ∀ s : String, stripLeadingV ("v" ++ s) = s := by
    intro s; cases s with
    | mk d => rfl
  have hV : ∀ s : String, stripLeadingV ("V" ++ s) = s := by
    intro s; cases s with
    | mk d => rfl
  refine ⟨fun s => ⟨hv s, hV s⟩, ?_, ?_⟩
  · intro s; cases s with
    | mk d => rfl
  · intro s h
    rw [hv s]
    exact ⟨rfl, h⟩

/-- C6 witness: the tag `v1.2.3` normalizes to `1.2.3`, which parses. -/
theorem c6_strip_one_leading_v_witness :
    stripLeadingV ("v" ++ "1.2.3") = "1.2.3" ∧
      (VersionInfo.parse (stripLeadingV ("v" ++ "1.2.3"))).isSome = true :=
  c6_strip_one_leading_v.2.2 "1.2.3" (by decide)

/-- C7 counterexample: for the manifest line
`mod 'a', :git => 'u', :tag => 'vbad'` the invalid-tags collection holds
`("a", "bad")` — the tag after `v`-stripping — and not `("a", "vbad")`, the
tag as written in the manifest, contradicting the claim's `rawTag`. -/
theorem c7_invalid_tag_counterexample :
    (parse_r10k_puppetfile (some [badTagLine])).2 = [("a", "bad")]
    ∧ ("a", "vbad") ∉ (parse_r10k_puppetfile (some [badTagLine])).2
    ∧ List.lookup "a" (parse_r10k_puppetfile (some [badTagLine])).1 = none := by
  refine ⟨by decide, by decide, by decide⟩

/-- C7 as amended: a manifest line whose normalized (leading-`v`-stripped)
tag fails version validation leaves the working mapping unchanged and
appends exactly one pair — the module name with the *normalized* tag, not
the tag as written — to the invalid-tags collection. -/
theorem c7_invalid_tag_collected :
    ∀ (acc : List (String × ModEntry) × List (String × String))
      (line name url rawTag : String),
      searchMod (pyStrip line).data = some (name, url, rawTag) →
      VersionInfo.parse (stripLeadingV rawTag) = none →
      processLine acc line = (acc.1, acc.2 ++ [(name, stripLeadingV rawTag)]) := by
  intro acc line name url rawTag hm hp
  simp only [processLine, hm, hp]

/-- C7 witness: the amended rule instantiated on the concrete bad-tag line,
starting from the empty parser state. -/
theorem c7_invalid_tag_collected_witness :
    processLine ([], []) badTagLine = ([], [("a", stripLeadingV "vbad")]) :=
  c7_invalid_tag_collected ([], []) badTagLine "a" "u" "vbad" (by decide) (by decide)

/-- C5: a module block's outdated flag is exact string inequality between
the pinned tag and the module-endpoint version — not semantic-version
equivalence: a pre-release-qualified endpoint version is flagged, and even
`1.2.0+build.1`, which `semver.compare` ranks equal to `1.2.0`, is flagged. -/
theorem c5_outdated_exact_string :
    (∀ (pd : List (String × String)) (pa : Bool) (module : String)
        (diff : DiffEntry) (r : ModuleReport),
        (reportModule pd pa (module, diff)).1 = some r →
        (r.outdated = true ↔ diff.module_endpoint_version ≠ some diff.puppet_tag))
    ∧ (reportModule [] true ("m", diffPre)).1 =
        some { module := "m", puppet_tag := "1.2.0",
               forge_version := some "1.2.0-rc.1", outdated := true, deps := [] }
    ∧ semver_compare "1.2.0" "1.2.0+build.1" = some 0
    ∧ (reportModule [] true ("m", diffBuild)).1 =
        some { module := "m", puppet_tag := "1.2.0",
               forge_version := some "1.2.0+build.1", outdated := true, deps := [] } := by
  refine ⟨?_, by decide, by decide, by decide⟩
  intro pd pa module diff r h
  simp only [reportModule] at h
  split at h
  · rw [Option.some.injEq] at h
    subst h
    simp only [Bool.not_eq_true', decide_eq_false_iff_not]
    exact ne_comm
  · exact absurd h (by simp)

/-- C5 witness: the string-inequality rule applied to the concrete entry
whose endpoint version differs only by a pre-release qualifier. -/
theorem c5_outdated_exact_string_witness :
    ({ module := "m", puppet_tag := "1.2.0", forge_version := some "1.2.0-rc.1",
       outdated := true, deps := [] } : ModuleReport).outdated = true ↔
      diffPre.module_endpoint_version ≠ some diffPre.puppet_tag :=
  c5_outdated_exact_string.1 [] true "m" diffPre _ (by decide)

/-- C8: an entry whose `git_url` is not on the trusted host yields
`(name, None)` for every registry gateway (so no fetch is observable), is
dropped from the fetched-module mapping, and therefore leaves the
diagnostic report and the `has_errors` verdict unchanged. -/
theorem c8_untrusted_host_excluded :
    ∀ (fr fr2 : String → Option ReleaseData) (fm fm2 : String → Option ModuleData)
      (name : String) (e : ModEntry) (pre post : List (String × ModEntry))
      (pm : List (String × ModEntry)) (pa : Bool),
      strStartsWith e.git_url "https://github.com/" = false →
      fetch_module_data fr fm (name, e) = (name, none)
      ∧ fetch_module_data fr fm (name, e) = fetch_module_data fr2 fm2 (name, e)
      ∧ get_current_release_and_metadata fr fm (pre ++ (name, e) :: post) =
          get_current_release_and_metadata fr fm (pre ++ post)
      ∧ print_differences
            (compare_modules pm (get_current_release_and_metadata fr fm (pre ++ (name, e) :: post)))
            pm pa =
          print_differences
            (compare_modules pm (get_current_release_and_metadata fr fm (pre ++ post)))
            pm pa := by
  intro fr fr2 fm fm2 name e pre post pm pa h
  have h1 : fetch_module_data fr fm (name, e) = (name, none) := by
    simp [fetch_module_data, h]
  have h2 : fetch_module_data fr2 fm2 (name, e) = (name, none) := by
    simp [fetch_module_data, h]
  have h3 : get_current_release_and_metadata fr fm (pre ++ (name, e) :: post) =
      get_current_release_and_metadata fr fm (pre ++ post) := by
    simp only [get_current_release_and_metadata, List.map_append, List.map_cons,
      List.foldl_append, List.foldl_cons, h1]
  exact ⟨h1, h1.trans h2.symm, h3, by rw [h3]⟩

/-- C8 witness: a module hosted outside `https://github.com/` is returned
as `(name, None)`. -/
theorem c8_untrusted_host_excluded_witness :
    fetch_module_data frNone fmNone ("m", { tag := "1.0.0", git_url := "ssh://internal/x" }) =
      ("m", none) :=
  (c8_untrusted_host_excluded frNone frNone fmNone fmNone "m"
    { tag := "1.0.0", git_url := "ssh://internal/x" } [] [] [] false (by decide)).1

/-- With `print_all` set, every module produces a printed block whose
`module` field is the module's name. -/
theorem reportModule_print_all (pd : List (String × String)) (md : String × DiffEntry) :
    ∃ r e, reportModule pd true md = (some r, e) ∧ r.module = md.1 := by
  obtain ⟨m, d⟩ := md
  simp only [reportModule, Bool.or_true]
  exact ⟨_, _, rfl, rfl⟩

/-- With `print_all` set, the fold of `printDiffStep` appends one block per
module, in order. -/
theorem printDiffStep_all_modules (pd : List (String × String)) :
    ∀ (diffs : List (String × DiffEntry)) (acc : List ModuleReport) (b : Bool),
      ((diffs.foldl (printDiffStep pd true) (acc, b)).1).map ModuleReport.module =
        acc.map ModuleReport.module ++ diffs.map Prod.fst := by
  intro diffs
  induction diffs with
  | nil => intro acc b; simp
  | cons hd tl ih =>
    intro acc b
    obtain ⟨r, e, hre, hm⟩ := reportModule_print_all pd hd
    simp only [List.foldl_cons, printDiffStep, hre, List.map_cons]
    rw [ih]
    simp [hm]

/-- C1 counterexample: with the `Puppetfile` unreadable, the run —
contrary to the claimed non-zero outcome — produces an empty report and
exits 0. -/
theorem c1_unreadable_counterexample :
    main_run fsNone ["Puppetfile"] frNone fmNone
      { puppetfile_path := "Puppetfile", verbose := false, print_all := false } =
      ([], 0) := by decide

/-- C1 as amended: an unreadable manifest is reported but not terminal —
parsing returns the empty mapping and empty invalid-tags collection, the
run proceeds on the empty data, produces no module diagnostics, and exits
with status 0. -/
theorem c1_unreadable_exits_zero :
    ∀ (fs : String → Option (List String)) (changed : List String)
      (fr : String → Option ReleaseData) (fm : String → Option ModuleData)
      (args : Args),
      fs "Puppetfile" = none →
      parse_r10k_puppetfile (fs "Puppetfile") = ([], [])
      ∧ main_run fs changed fr fm args = ([], 0) := by
  intro fs changed fr fm args h
  constructor
  · rw [h]; rfl
  · simp only [main_run, h]
    cases hc : changed.contains "Puppetfile" || args.print_all <;>
      simp [hc, parse_r10k_puppetfile, get_current_release_and_metadata,
        compare_modules, print_differences]

/-- C1 witness: the amended behaviour at a concrete unreadable filesystem. -/
theorem c1_unreadable_exits_zero_witness :
    parse_r10k_puppetfile (fsNone "Puppetfile") = ([], [])
    ∧ main_run fsNone ["Puppetfile"] frNone fmNone
        { puppetfile_path := "Puppetfile", verbose := false, print_all := false } =
        ([], 0) :=
  c1_unreadable_exits_zero fsNone ["Puppetfile"] frNone fmNone
    { puppetfile_path := "Puppetfile", verbose := false, print_all := false } rfl

/-- C2 counterexample: in print-all mode a run whose sole module is both
outdated and missing its declared dependency `b` (a non-Satisfied finding)
still exits 0, contrary to the claimed non-zero verdict rule. -/
theorem c2_print_all_counterexample :
    main_run fsTest [] frTest fmTest
      { puppetfile_path := "Puppetfile", verbose := false, print_all := true } =
      ([{ module := "a", puppet_tag := "1.0.0", forge_version := some "2.0.0",
          outdated := true, deps := [DepStatus.notFound "b" ">=1.0.0"] }], 0) := by
  decide

/-- C2 as amended: when print-all mode is requested every module is listed
(one block per fetched module, in order), but the exit status is
unconditionally 0, regardless of outdated modules or non-Satisfied
dependency findings. -/
theorem c2_print_all_always_exits_zero :
    (∀ (fs : String → Option (List String)) (changed : List String)
        (fr : String → Option ReleaseData) (fm : String → Option ModuleData)
        (args : Args), args.print_all = true →
        (main_run fs changed fr fm args).2 = 0)
    ∧ (∀ (diffs : List (String × DiffEntry)) (pm : List (String × ModEntry)),
        ((print_differences diffs pm true).1).map ModuleReport.module =
          diffs.map Prod.fst) := by
  constructor
  · intro fs changed fr fm args h
    simp [main_run, h]
  · intro diffs pm
    simpa using printDiffStep_all_modules (pm.map (fun kv => (kv.1, kv.2.tag))) diffs [] false

/-- C2 witness: the always-zero exit and the full listing at the concrete
erroring run. -/
theorem c2_print_all_always_exits_zero_witness :
    (main_run fsTest [] frTest fmTest
        { puppetfile_path := "Puppetfile", verbose := false, print_all := true }).2 = 0
    ∧ ((print_differences [] [] true).1).map ModuleReport.module = [] :=
  ⟨c2_print_all_always_exits_zero.1 fsTest [] frTest fmTest
      { puppetfile_path := "Puppetfile", verbose := false, print_all := true } rfl,
    c2_print_all_always_exits_zero.2 [] []⟩

/-- C9: `main` hardcodes the path `Puppetfile` (line 226) and never reads
`args.puppetfile_path`; with the manifest present only at the supplied path
`custom.pf`, the run parses nothing and reports nothing, although parsing
the supplied path would have produced module `a`. -/
theorem c9_supplied_path_ignored :
    main_run fsCustom ["Puppetfile"] frTest fmTest
      { puppetfile_path := "custom.pf", verbose := false, print_all := false } =
      ([], 0)
    ∧ (parse_r10k_puppetfile (fsCustom "custom.pf")).1 =
        [("a", { tag := "1.0.0", git_url := "https://github.com/x/a" })] := by
  refine ⟨by decide, by decide⟩

end PuppetCheck
